import Mathlib

/-!
Verification development for the ConstellationMarketing/cms-core repository.

The development shallowly embeds the three source files:
  * `src/client/lib/siteSettingsTypes.ts` — the settings data model, the
    built-in defaults, and the two row/object mapping helpers
    `rowToSiteSettings` and `siteSettingsToRow`;
  * `src/client/hooks/useSiteSettings.ts` — the module-scoped single-flight
    settings cache (`settingsCache` / `fetchPromise`), the body of the fetch
    operation, the continuations of the initiating caller and of joining
    callers, and `clearSiteSettingsCache`;
  * `src/client/components/admin/PageContentEditor.tsx` — the per-page
    editors' `update` helpers (immutable spread updates), the `ArrayEditor`
    list operations, and the fallback JSON editor's change handler.

JavaScript idioms are made explicit: `x || d` on a nullable string is
`strOr`, `xs?.length ? xs : d` on a nullable array is `listOr`, `x ?? d` is
`boolOr`, and `s || null` on a string is `emptyToNull`.  Nullable values are
`Option`s.  The cooperative (single-threaded, run-to-completion) JavaScript
scheduling model is embedded by letting the synchronous prefix of each
`getSettings` call run atomically (`callStep`) and by representing the
resolution of the shared fetch promise as a separate step
(`initiatorResume` / `joinerResume`).
-/

namespace CmsCore

/-- `NavigationItem` from `siteSettingsTypes.ts` (lines 3-8); `order` and
`openInNewTab` are optional. -/
structure NavigationItem where
  label : String
  href : String
  order : Option Nat
  openInNewTab : Option Bool
deriving DecidableEq, Repr

/-- `FooterLink` from `siteSettingsTypes.ts` (lines 10-13); `href` is
optional. -/
structure FooterLink where
  label : String
  href : Option String
deriving DecidableEq, Repr

/-- The closed platform enumeration of `SocialLink.platform`
(`siteSettingsTypes.ts` line 16). -/
inductive SocialPlatform where
  | facebook
  | instagram
  | twitter
  | linkedin
  | youtube
deriving DecidableEq, Repr

/-- `SocialLink` from `siteSettingsTypes.ts` (lines 15-19). -/
structure SocialLink where
  platform : SocialPlatform
  url : String
  enabled : Bool
deriving DecidableEq, Repr

/-- `SiteSettings` from `siteSettingsTypes.ts` (lines 21-68): the
application-facing settings value object, every field total. -/
structure SiteSettings where
  siteName : String
  logoUrl : String
  logoAlt : String
  phoneNumber : String
  phoneDisplay : String
  phoneAvailability : String
  applyPhoneGlobally : Bool
  headerCtaText : String
  headerCtaUrl : String
  navigationItems : List NavigationItem
  footerAboutLinks : List FooterLink
  footerPracticeLinks : List FooterLink
  addressLine1 : String
  addressLine2 : String
  mapEmbedUrl : String
  socialLinks : List SocialLink
  copyrightText : String
  siteNoindex : Bool
  ga4MeasurementId : String
  googleAdsId : String
  googleAdsConversionLabel : String
  headScripts : String
  footerScripts : String
deriving DecidableEq, Repr

/-- `SiteSettingsRow` from `siteSettingsTypes.ts` (lines 71-99): the wire
and storage shape, with nullable scalar fields.  The declared interface
marks `apply_phone_globally`, `site_noindex` and the three array fields as
non-null, but `rowToSiteSettings` defends against null and undefined on all
of them (`??` and `?.length`), so they are embedded as `Option` too. -/
structure SiteSettingsRow where
  id : String
  settings_key : String
  logo_url : Option String
  logo_alt : Option String
  phone_number : Option String
  phone_display : Option String
  phone_availability : Option String
  apply_phone_globally : Option Bool
  header_cta_text : Option String
  header_cta_url : Option String
  navigation_items : Option (List NavigationItem)
  footer_about_links : Option (List FooterLink)
  footer_practice_links : Option (List FooterLink)
  address_line1 : Option String
  address_line2 : Option String
  map_embed_url : Option String
  social_links : Option (List SocialLink)
  copyright_text : Option String
  site_noindex : Option Bool
  ga4_measurement_id : Option String
  google_ads_id : Option String
  google_ads_conversion_label : Option String
  head_scripts : Option String
  footer_scripts : Option String
  site_name : Option String
  updated_at : String
  updated_by : Option String
deriving DecidableEq, Repr

/-- JavaScript `row.field || d` on a nullable string: null, undefined and
the empty string are all falsy, so each of them selects the default. -/
def strOr (o : Option String) (d : String) : String :=
  match o with
  | some s => if s = "" then d else s
  | none => d

/-- JavaScript `row.field?.length ? row.field : d` on a nullable array:
null, undefined and the empty array (length `0` is falsy) select the
default. -/
def listOr {α : Type} (o : Option (List α)) (d : List α) : List α :=
  match o with
  | some l => if l.isEmpty then d else l
  | none => d

/-- JavaScript `row.field ?? d` on a nullable boolean: only null and
undefined select the default; `false` is kept. -/
def boolOr (o : Option Bool) (d : Bool) : Bool :=
  o.getD d

/-- JavaScript `s || null` on a string: the empty string becomes null,
every other string is kept. -/
def emptyToNull (s : String) : Option String :=
  if s = "" then none else some s

/-- `DEFAULT_SITE_SETTINGS` from `siteSettingsTypes.ts` (lines 102-146). -/
def DEFAULT_SITE_SETTINGS : SiteSettings :=
  { siteName := "Silva Trial Lawyers"
    logoUrl := "https://cdn.builder.io/api/v1/image/assets%2F50bd0f2438824f8ea1271cf7dd2c508e%2F76aac573949f43688ef9e04aa97e4711?format=webp&width=800&height=1200"
    logoAlt := "Silva Trial Lawyers"
    phoneNumber := "4049057742"
    phoneDisplay := "404-905-7742"
    phoneAvailability := "Available 24/7"
    applyPhoneGlobally := true
    headerCtaText := "GET HELP NOW"
    headerCtaUrl := "#book"
    navigationItems :=
      [ { label := "Home", href := "/", order := some 1, openInNewTab := none }
      , { label := "About Us", href := "/about", order := some 2, openInNewTab := none }
      , { label := "Practice Areas", href := "/practice-areas", order := some 3, openInNewTab := none }
      , { label := "Contact Us", href := "/contact", order := some 4, openInNewTab := none } ]
    footerAboutLinks :=
      [ { label := "About Us", href := some "/about" }
      , { label := "Contact", href := some "/contact" } ]
    footerPracticeLinks :=
      [ { label := "Car Accidents", href := some "/practice-areas" }
      , { label := "Truck Accidents", href := some "/practice-areas" }
      , { label := "Motorcycle Accidents", href := some "/practice-areas" }
      , { label := "Premises Liability", href := some "/practice-areas" }
      , { label := "Workers Compensation", href := some "/practice-areas" }
      , { label := "Wrongful Death", href := some "/practice-areas" } ]
    addressLine1 := "4120 Presidential Parkway, Suite 200"
    addressLine2 := "Atlanta, Georgia 30340"
    mapEmbedUrl := "https://www.google.com/maps/embed?pb=!1m18!1m12!1m3!1d3313.5!2d-84.2!3d33.9!2m3!1f0!2f0!3f0!3m2!1i1024!2i768!4f13.1!3m3!1m2!1s0x0%3A0x0!2s4120+Presidential+Pkwy%2C+Atlanta%2C+GA+30340!5e0!3m2!1sen!2sus"
    socialLinks :=
      [ { platform := .facebook, url := "https://facebook.com", enabled := true }
      , { platform := .instagram, url := "https://instagram.com", enabled := true } ]
    copyrightText := "Copyright Â© 2026 | Silva Trial Lawyers | All Rights Reserved"
    siteNoindex := false
    ga4MeasurementId := ""
    googleAdsId := ""
    googleAdsConversionLabel := ""
    headScripts := ""
    footerScripts := "" }

/-- `rowToSiteSettings` from `siteSettingsTypes.ts` (lines 149-185):
Row to Settings, substituting per-field defaults for null, undefined,
empty-string and empty-array stored values.  The five analytics and script
fields default to the empty string, not to the `DEFAULT_SITE_SETTINGS`
entry. -/
def rowToSiteSettings (row : SiteSettingsRow) : SiteSettings :=
  { siteName := strOr row.site_name DEFAULT_SITE_SETTINGS.siteName
    logoUrl := strOr row.logo_url DEFAULT_SITE_SETTINGS.logoUrl
    logoAlt := strOr row.logo_alt DEFAULT_SITE_SETTINGS.logoAlt
    phoneNumber := strOr row.phone_number DEFAULT_SITE_SETTINGS.phoneNumber
    phoneDisplay := strOr row.phone_display DEFAULT_SITE_SETTINGS.phoneDisplay
    phoneAvailability := strOr row.phone_availability DEFAULT_SITE_SETTINGS.phoneAvailability
    applyPhoneGlobally := boolOr row.apply_phone_globally DEFAULT_SITE_SETTINGS.applyPhoneGlobally
    headerCtaText := strOr row.header_cta_text DEFAULT_SITE_SETTINGS.headerCtaText
    headerCtaUrl := strOr row.header_cta_url DEFAULT_SITE_SETTINGS.headerCtaUrl
    navigationItems := listOr row.navigation_items DEFAULT_SITE_SETTINGS.navigationItems
    footerAboutLinks := listOr row.footer_about_links DEFAULT_SITE_SETTINGS.footerAboutLinks
    footerPracticeLinks := listOr row.footer_practice_links DEFAULT_SITE_SETTINGS.footerPracticeLinks
    addressLine1 := strOr row.address_line1 DEFAULT_SITE_SETTINGS.addressLine1
    addressLine2 := strOr row.address_line2 DEFAULT_SITE_SETTINGS.addressLine2
    mapEmbedUrl := strOr row.map_embed_url DEFAULT_SITE_SETTINGS.mapEmbedUrl
    socialLinks := listOr row.social_links DEFAULT_SITE_SETTINGS.socialLinks
    copyrightText := strOr row.copyright_text DEFAULT_SITE_SETTINGS.copyrightText
    siteNoindex := boolOr row.site_noindex DEFAULT_SITE_SETTINGS.siteNoindex
    ga4MeasurementId := strOr row.ga4_measurement_id ""
    googleAdsId := strOr row.google_ads_id ""
    googleAdsConversionLabel := strOr row.google_ads_conversion_label ""
    headScripts := strOr row.head_scripts ""
    footerScripts := strOr row.footer_scripts "" }

/-- The value returned by `siteSettingsToRow` (`Partial<SiteSettingsRow>`):
exactly the keys the function writes, with the row's nullable typing.  The
audit fields (`id`, `settings_key`, `updated_at`, `updated_by`) are not
written. -/
structure SiteSettingsRowPatch where
  logo_url : Option String
  logo_alt : Option String
  phone_number : Option String
  phone_display : Option String
  phone_availability : Option String
  apply_phone_globally : Bool
  header_cta_text : Option String
  header_cta_url : Option String
  navigation_items : List NavigationItem
  footer_about_links : List FooterLink
  footer_practice_links : List FooterLink
  address_line1 : Option String
  address_line2 : Option String
  map_embed_url : Option String
  social_links : List SocialLink
  copyright_text : Option String
  site_noindex : Bool
  ga4_measurement_id : Option String
  google_ads_id : Option String
  google_ads_conversion_label : Option String
  head_scripts : Option String
  footer_scripts : Option String
  site_name : Option String
deriving DecidableEq, Repr

/-- `siteSettingsToRow` from `siteSettingsTypes.ts` (lines 188-216):
Settings to partial Row.  Plain string fields are assigned verbatim (the
injection into the nullable slot is `some`); only the five analytics and
script fields go through `s || null` (`emptyToNull`). -/
def siteSettingsToRow (settings : SiteSettings) : SiteSettingsRowPatch :=
  { logo_url := some settings.logoUrl
    logo_alt := some settings.logoAlt
    phone_number := some settings.phoneNumber
    phone_display := some settings.phoneDisplay
    phone_availability := some settings.phoneAvailability
    apply_phone_globally := settings.applyPhoneGlobally
    header_cta_text := some settings.headerCtaText
    header_cta_url := some settings.headerCtaUrl
    navigation_items := settings.navigationItems
    footer_about_links := settings.footerAboutLinks
    footer_practice_links := settings.footerPracticeLinks
    address_line1 := some settings.addressLine1
    address_line2 := some settings.addressLine2
    map_embed_url := some settings.mapEmbedUrl
    social_links := settings.socialLinks
    copyright_text := some settings.copyrightText
    site_noindex := settings.siteNoindex
    ga4_measurement_id := emptyToNull settings.ga4MeasurementId
    google_ads_id := emptyToNull settings.googleAdsId
    google_ads_conversion_label := emptyToNull settings.googleAdsConversionLabel
    head_scripts := emptyToNull settings.headScripts
    footer_scripts := emptyToNull settings.footerScripts
    site_name := some settings.siteName }

/-! ### The settings fetch operation (`useSiteSettings.ts`, lines 61-86)

The async IIFE that performs the network round-trip.  Its environment — the
HTTP transport and the JSON parser — is external; a single `FetchResult`
value records how the environment behaved on one request, and `runFetch`
is the IIFE body evaluated against that behaviour. -/

/-- How `response.json()` behaved: it can reject (the body is not valid
JSON), or produce a value that is not an array, or produce an array whose
elements are read as `SiteSettingsRow`s (an object missing fields reads as
a row whose every nullable field is null/undefined, which the `Option`
fields already represent). -/
inductive ResponseBody where
  | parseError
  | jsonNonArray
  | jsonArray (rows : List SiteSettingsRow)
deriving DecidableEq, Repr

/-- Behaviour of the environment on one outbound request: the transport
either rejects (network failure) or delivers a response with an `ok` flag,
a status code and a body. -/
inductive FetchResult where
  | networkError
  | response (ok : Bool) (status : Nat) (body : ResponseBody)
deriving DecidableEq, Repr

/-- The ways the fetch operation's promise can reject (`useSiteSettings.ts`
lines 63-77): the transport rejected, the thrown `HTTP error: <status>`
for a non-ok response, or a `response.json()` rejection. -/
inductive FetchError where
  | networkFailure
  | httpError (status : Nat)
  | jsonError
deriving DecidableEq, Repr

/-- The body of the fetch IIFE (`useSiteSettings.ts` lines 61-86) run
against one environment behaviour: a non-ok response throws; then the body
is parsed (a parse rejection propagates); a non-array value or an empty
array resolves to `DEFAULT_SITE_SETTINGS`; otherwise the first row is
mapped through `rowToSiteSettings`. -/
def runFetch (r : FetchResult) : Except FetchError SiteSettings :=
  match r with
  | .networkError => .error .networkFailure
  | .response ok status body =>
    if ok = false then .error (.httpError status)
    else
      match body with
      | .parseError => .error .jsonError
      | .jsonNonArray => .ok DEFAULT_SITE_SETTINGS
      | .jsonArray [] => .ok DEFAULT_SITE_SETTINGS
      | .jsonArray (row :: _) => .ok (rowToSiteSettings row)

/-! ### The module-scoped cache (`useSiteSettings.ts`, lines 19-129)

JavaScript is cooperative and single-threaded: the synchronous prefix of
each `fetchSettings` invocation (the cache check, the in-flight check, and
— for the initiator — publishing the promise and issuing the request) runs
atomically; everything after an `await` runs later, when the shared
promise settles.  `CacheState` is the module state plus two ghost
counters: `nextId` names fetch operations, `requests` counts outbound
network requests. -/

structure CacheState where
  /-- `settingsCache` (line 20): the memoized settings value. -/
  cache : Option SiteSettings
  /-- `fetchPromise` (line 21): the identity of the in-flight fetch, if
  any. -/
  inflightId : Option Nat
  /-- Ghost: the next fresh fetch identity. -/
  nextId : Nat
  /-- Ghost: how many outbound network requests have been issued. -/
  requests : Nat
deriving DecidableEq, Repr

/-- The fresh module state: both slots empty. -/
def initialCacheState : CacheState :=
  { cache := none, inflightId := none, nextId := 0, requests := 0 }

/-- What the synchronous prefix of one `fetchSettings` invocation did:
resolved immediately from the cache, joined the existing in-flight fetch,
or initiated a new fetch. -/
inductive CallPhase where
  | done (settings : SiteSettings) (error : Option FetchError)
  | joined (fid : Nat)
  | initiated (fid : Nat)
deriving DecidableEq, Repr

/-- The synchronous prefix of `fetchSettings` (`useSiteSettings.ts` lines
33-86): a populated cache resolves immediately (lines 34-41); else an
existing promise is joined (lines 43-58); else a new fetch is published to
`fetchPromise` and its request goes out before anything else can run
(lines 60-86). -/
def callStep (st : CacheState) : CacheState × CallPhase :=
  match st.cache with
  | some s => (st, .done s none)
  | none =>
    match st.inflightId with
    | some p => (st, .joined p)
    | none =>
      ({ st with
          inflightId := some st.nextId
          nextId := st.nextId + 1
          requests := st.requests + 1 },
        .initiated st.nextId)

/-- The initiator's continuation after the shared promise settles
(`useSiteSettings.ts` lines 88-108): on success the result is written to
`settingsCache` and displayed with a null error; on failure the cache is
left alone and the defaults are displayed with the error; in both cases
`fetchPromise` is cleared (the `finally`).  Returns the new module state
and the `(settings, error)` pair the initiating caller observes. -/
def initiatorResume (st : CacheState) (outcome : Except FetchError SiteSettings) :
    CacheState × (SiteSettings × Option FetchError) :=
  match outcome with
  | .ok s => ({ st with cache := some s, inflightId := none }, (s, none))
  | .error e => ({ st with inflightId := none }, (DEFAULT_SITE_SETTINGS, some e))

/-- A joiner's continuation after the shared promise settles
(`useSiteSettings.ts` lines 44-58): it mutates no module state; on success
it displays the shared result (its error state is still null), on failure
it records the error (its displayed settings are still the defaults it
mounted with, the cache having been empty when it joined). -/
def joinerResume (outcome : Except FetchError SiteSettings) :
    SiteSettings × Option FetchError :=
  match outcome with
  | .ok s => (s, none)
  | .error e => (DEFAULT_SITE_SETTINGS, some e)

/-- The `(settings, error)` pair delivered to a caller in phase `ph` once
the shared fetch settles with `outcome` (a `done` caller already has its
pair and never touches the promise). -/
def deliver (outcome : Except FetchError SiteSettings) : CallPhase → SiteSettings × Option FetchError
  | .done s e => (s, e)
  | .joined _ => joinerResume outcome
  | .initiated _ =>
    match outcome with
    | .ok s => (s, none)
    | .error e => (DEFAULT_SITE_SETTINGS, some e)

/-- `clearSiteSettingsCache` (`useSiteSettings.ts` lines 126-129): clears
both slots unconditionally. -/
def clearSiteSettingsCache (st : CacheState) : CacheState :=
  { st with cache := none, inflightId := none }

/-- `K` back-to-back synchronous prefixes (the interleaving of `K`
concurrent `getSettings` callers before the shared fetch settles: each
prefix is atomic under cooperative scheduling). -/
def runCalls : Nat → CacheState → CacheState × List CallPhase
  | 0, st => (st, [])
  | k + 1, st =>
    let p := callStep st
    let r := runCalls k p.1
    (r.1, p.2 :: r.2)

/-- One whole `getSettings` round for a single caller when no fetch is in
flight: the synchronous prefix, then — if a fetch was initiated — the
environment's behaviour `r` settles it and the initiator's continuation
runs.  Returns the final module state and the caller's observed pair. -/
def getSettingsOnce (st : CacheState) (r : FetchResult) :
    CacheState × (SiteSettings × Option FetchError) :=
  match callStep st with
  | (st', .done s e) => (st', (s, e))
  | (st', .joined _) => (st', joinerResume (runFetch r))
  | (st', .initiated _) => initiatorResume st' (runFetch r)

/-! ### Page content documents (`PageContentEditor.tsx`)

The four page-content shapes are declared in `lib/pageContentTypes.ts`,
which is not among the sources; the structures below are reconstructed
from the fields each editor reads and writes (every access in
`PageContentEditor.tsx`), which is all the editors' behaviour depends
on. -/

structure HomeHero where
  title : String
  subtitle : String
  backgroundImage : String
  ctaText : String
  ctaUrl : String
  attorneyImage : String
  badgeImage : String
deriving DecidableEq, Repr

structure HomeFeature where
  icon : String
  title : String
  description : String
deriving DecidableEq, Repr

structure HomeMission where
  heading : String
  paragraphs : List String
  image : String
  ctaPrimaryText : String
  ctaPrimaryUrl : String
  ctaSecondaryText : String
  ctaSecondaryUrl : String
deriving DecidableEq, Repr

structure HomeAttorney where
  name : String
  title : String
  photo : String
  bio : String
  bullets : List String
  phone : String
deriving DecidableEq, Repr

structure HomeSpeakWithUs where
  heading : String
  description : String
  image : String
  ctaText : String
  ctaUrl : String
deriving DecidableEq, Repr

structure ClientVideo where
  embedUrl : String
  thumbnail : String
deriving DecidableEq, Repr

structure HomeClientStories where
  heading : String
  subtitle : String
  videos : List ClientVideo
deriving DecidableEq, Repr

structure HomeContactForm where
  heading : String
  image : String
  badgeImage : String
deriving DecidableEq, Repr

structure HomeServiceItem where
  title : String
  icon : String
deriving DecidableEq, Repr

structure HomeServices where
  heading : String
  description : String
  items : List HomeServiceItem
  closingText : String
deriving DecidableEq, Repr

/-- `HomePageContent`: the document edited by `HomePageEditor`
(`PageContentEditor.tsx` lines 125-684). -/
structure HomePageContent where
  hero : HomeHero
  features : List HomeFeature
  mission : HomeMission
  attorney : HomeAttorney
  speakWithUs : HomeSpeakWithUs
  clientStories : HomeClientStories
  contactForm : HomeContactForm
  services : HomeServices
deriving DecidableEq, Repr

structure AboutHero where
  title : String
  backgroundImage : String
deriving DecidableEq, Repr

structure AboutStory where
  paragraphs : List String
  image : String
  ctaPrimaryText : String
  ctaPrimaryUrl : String
deriving DecidableEq, Repr

structure AboutAttorney where
  name : String
  title : String
  photo : String
  bio : List String
  phone : String
deriving DecidableEq, Repr

structure ApproachCard where
  icon : String
  title : String
  description : String
deriving DecidableEq, Repr

structure Testimonial where
  quote : String
  name : String
  initials : String
  caseType : String
  rating : Nat
deriving DecidableEq, Repr

structure CtaSection where
  heading : String
  description : String
  phone : String
deriving DecidableEq, Repr

/-- `AboutPageContent`: the document edited by `AboutPageEditor`
(`PageContentEditor.tsx` lines 687-984). -/
structure AboutPageContent where
  hero : AboutHero
  story : AboutStory
  attorney : AboutAttorney
  approach : List ApproachCard
  testimonials : List Testimonial
  cta : CtaSection
deriving DecidableEq, Repr

structure ContactHero where
  title : String
  subtitle : String
  backgroundImage : String
deriving DecidableEq, Repr

structure ContactInfo where
  phone : String
  phoneNote : String
  address : List String
  addressLabel : String
deriving DecidableEq, Repr

structure ContactFormSection where
  heading : String
  image : String
  badgeImage : String
deriving DecidableEq, Repr

structure OfficeHoursEntry where
  label : String
  hours : String
deriving DecidableEq, Repr

/-- `ContactPageContent`: the document edited by `ContactPageEditor`
(`PageContentEditor.tsx` lines 987-1213). -/
structure ContactPageContent where
  hero : ContactHero
  info : ContactInfo
  form : ContactFormSection
  officeHours : List OfficeHoursEntry
  hoursNote : String
  mapEmbedUrl : String
  cta : CtaSection
deriving DecidableEq, Repr

structure PracticeAreasHero where
  title : String
  backgroundImage : String
deriving DecidableEq, Repr

structure PracticeArea where
  name : String
  icon : String
  description : String
deriving DecidableEq, Repr

structure OptionsSection where
  heading : String
  text : String
  image : String
  ctaPrimaryText : String
  ctaPrimaryUrl : String
deriving DecidableEq, Repr

/-- `PracticeAreasPageContent`: the document edited by
`PracticeAreasPageEditor` (`PageContentEditor.tsx` lines 1216-1409). -/
structure PracticeAreasPageContent where
  hero : PracticeAreasHero
  intro : String
  areas : List PracticeArea
  options : OptionsSection
  cta : CtaSection
deriving DecidableEq, Repr

/-! ### The editors' `update` helpers

Each specific editor defines
`update(key, value) = onChange({ ...content, [key]: value })`
(`PageContentEditor.tsx` lines 132-137, 694-699, 994-999, 1223-1228); the
spread builds a fresh document with one key replaced.  One definition per
key instantiates that spread. -/

def homeUpdateHero (c : HomePageContent) (v : HomeHero) : HomePageContent :=
  { c with hero := v }

def homeUpdateFeatures (c : HomePageContent) (v : List HomeFeature) : HomePageContent :=
  { c with features := v }

def homeUpdateMission (c : HomePageContent) (v : HomeMission) : HomePageContent :=
  { c with mission := v }

def homeUpdateAttorney (c : HomePageContent) (v : HomeAttorney) : HomePageContent :=
  { c with attorney := v }

def homeUpdateSpeakWithUs (c : HomePageContent) (v : HomeSpeakWithUs) : HomePageContent :=
  { c with speakWithUs := v }

def homeUpdateClientStories (c : HomePageContent) (v : HomeClientStories) : HomePageContent :=
  { c with clientStories := v }

def homeUpdateContactForm (c : HomePageContent) (v : HomeContactForm) : HomePageContent :=
  { c with contactForm := v }

def homeUpdateServices (c : HomePageContent) (v : HomeServices) : HomePageContent :=
  { c with services := v }

/-- The hero-title leaf handler of `HomePageEditor` (line 148):
`update("hero", { ...content.hero, title: v })`. -/
def homeHeroTitleHandler (c : HomePageContent) (v : String) : HomePageContent :=
  homeUpdateHero c { c.hero with title := v }

def aboutUpdateHero (c : AboutPageContent) (v : AboutHero) : AboutPageContent :=
  { c with hero := v }

def aboutUpdateStory (c : AboutPageContent) (v : AboutStory) : AboutPageContent :=
  { c with story := v }

def aboutUpdateAttorney (c : AboutPageContent) (v : AboutAttorney) : AboutPageContent :=
  { c with attorney := v }

def aboutUpdateApproach (c : AboutPageContent) (v : List ApproachCard) : AboutPageContent :=
  { c with approach := v }

def aboutUpdateTestimonials (c : AboutPageContent) (v : List Testimonial) : AboutPageContent :=
  { c with testimonials := v }

def aboutUpdateCta (c : AboutPageContent) (v : CtaSection) : AboutPageContent :=
  { c with cta := v }

/-- The hero-title leaf handler of `AboutPageEditor` (line 710). -/
def aboutHeroTitleHandler (c : AboutPageContent) (v : String) : AboutPageContent :=
  aboutUpdateHero c { c.hero with title := v }

def contactUpdateHero (c : ContactPageContent) (v : ContactHero) : ContactPageContent :=
  { c with hero := v }

def contactUpdateInfo (c : ContactPageContent) (v : ContactInfo) : ContactPageContent :=
  { c with info := v }

def contactUpdateForm (c : ContactPageContent) (v : ContactFormSection) : ContactPageContent :=
  { c with form := v }

def contactUpdateOfficeHours (c : ContactPageContent) (v : List OfficeHoursEntry) : ContactPageContent :=
  { c with officeHours := v }

/-- Direct handler `onChange({ ...content, hoursNote: v })` (line 1159). -/
def contactUpdateHoursNote (c : ContactPageContent) (v : String) : ContactPageContent :=
  { c with hoursNote := v }

/-- Direct handler `onChange({ ...content, mapEmbedUrl: v })` (line 1172). -/
def contactUpdateMapEmbedUrl (c : ContactPageContent) (v : String) : ContactPageContent :=
  { c with mapEmbedUrl := v }

def contactUpdateCta (c : ContactPageContent) (v : CtaSection) : ContactPageContent :=
  { c with cta := v }

/-- The hero-title leaf handler of `ContactPageEditor` (line 1010). -/
def contactHeroTitleHandler (c : ContactPageContent) (v : String) : ContactPageContent :=
  contactUpdateHero c { c.hero with title := v }

def paUpdateHero (c : PracticeAreasPageContent) (v : PracticeAreasHero) : PracticeAreasPageContent :=
  { c with hero := v }

/-- Direct handler `onChange({ ...content, intro: v })` (line 1263). -/
def paUpdateIntro (c : PracticeAreasPageContent) (v : String) : PracticeAreasPageContent :=
  { c with intro := v }

def paUpdateAreas (c : PracticeAreasPageContent) (v : List PracticeArea) : PracticeAreasPageContent :=
  { c with areas := v }

def paUpdateOptions (c : PracticeAreasPageContent) (v : OptionsSection) : PracticeAreasPageContent :=
  { c with options := v }

def paUpdateCta (c : PracticeAreasPageContent) (v : CtaSection) : PracticeAreasPageContent :=
  { c with cta := v }

/-- The hero-title leaf handler of `PracticeAreasPageEditor` (line 1239). -/
def paHeroTitleHandler (c : PracticeAreasPageContent) (v : String) : PracticeAreasPageContent :=
  paUpdateHero c { c.hero with title := v }

/-! ### `ArrayEditor` list operations (`PageContentEditor.tsx` lines 77-89) -/

/-- `addItem` (lines 77-79): `onChange([...items, newItem()])`. -/
def arrayAddItem {α : Type} (items : List α) (item : α) : List α :=
  items ++ [item]

/-- `removeItem` (lines 81-83):
`onChange(items.filter((_, i) => i !== index))`, written over the indexed
list. -/
def arrayRemoveItem {α : Type} (items : List α) (index : Nat) : List α :=
  (items.enum.filter (fun p => p.1 != index)).map Prod.snd

/-- `updateItem` (lines 85-89): copy the array and overwrite one position
(`newItems[index] = item`; every call site passes an in-range index). -/
def arrayUpdateItem {α : Type} (items : List α) (index : Nat) (item : α) : List α :=
  items.set index item

/-! ### The fallback JSON editor (`PageContentEditor.tsx` lines 1457-1472)

The textarea handler wraps the host platform's `JSON.parse` in a
try/catch: a successful parse calls `onChange(parsed)`, a parse exception
is swallowed.  `JSON.parse` itself is a host builtin, abstracted as a
function `parse : String → Option α` (`none` models the exception). -/

/-- The fallback editor's change handler against one parse behaviour:
returns the parent's resulting content value together with the list of
`onChange` invocations it performed. -/
def fallbackHandleChange {α : Type} (parse : String → Option α)
    (current : α) (text : String) : α × List α :=
  match parse text with
  | some doc => (doc, [doc])
  | none => (current, [])

/-! ## Helper lemmas about the cache model -/

theorem runCalls_joined (p : Nat) : ∀ (k : Nat) (st : CacheState),
    st.cache = none → st.inflightId = some p →
    runCalls k st = (st, List.replicate k (CallPhase.joined p)) := by
  intro k
  induction k with
  | zero => intro st _ _; simp [runCalls]
  | succ n ih =>
    intro st hc hi
    have hcs : callStep st = (st, CallPhase.joined p) := by
      simp [callStep, hc, hi]
    simp [runCalls, hcs, ih st hc hi, List.replicate_succ]

theorem runCalls_done (s : SiteSettings) : ∀ (k : Nat) (st : CacheState),
    st.cache = some s →
    runCalls k st = (st, List.replicate k (CallPhase.done s none)) := by
  intro k
  induction k with
  | zero => intro st _; simp [runCalls]
  | succ n ih =>
    intro st hc
    have hcs : callStep st = (st, CallPhase.done s none) := by
      simp [callStep, hc]
    simp [runCalls, hcs, ih st hc, List.replicate_succ]

theorem deliver_joined_eq_initiated (outcome : Except FetchError SiteSettings)
    (p q : Nat) :
    deliver outcome (CallPhase.joined p) = deliver outcome (CallPhase.initiated q) := by
  cases outcome <;> rfl

/-! ## Claims about the settings cache -/

/-- Claim C1 (single-flight): for every `K ≥ 1`, issuing `K` concurrent
`getSettings()` calls while the cached-value slot is empty and no fetch is
in flight results in exactly one outbound network request — the first
caller initiates one fetch and every other caller joins it — and, for any
outcome of that fetch, all `K` callers are delivered the same
`(settings, error)` pair. -/
theorem single_flight (K : Nat) (st : CacheState) (hK : 1 ≤ K)
    (hc : st.cache = none) (hi : st.inflightId = none) :
    (runCalls K st).1.requests = st.requests + 1 ∧
    (runCalls K st).2 =
      CallPhase.initiated st.nextId ::
        List.replicate (K - 1) (CallPhase.joined st.nextId) ∧
    ∀ (outcome : Except FetchError SiteSettings) (ph : CallPhase),
      ph ∈ (runCalls K st).2 →
      deliver outcome ph = deliver outcome (CallPhase.initiated st.nextId) := by
  obtain ⟨k, rfl⟩ : ∃ k, K = k + 1 :=
    ⟨K - 1, (Nat.succ_pred_eq_of_pos hK).symm⟩
  have hcs : callStep st =
      ({ st with
          inflightId := some st.nextId
          nextId := st.nextId + 1
          requests := st.requests + 1 },
        CallPhase.initiated st.nextId) := by
    simp [callStep, hc, hi]
  have hrest := runCalls_joined st.nextId k
    { st with
        inflightId := some st.nextId
        nextId := st.nextId + 1
        requests := st.requests + 1 }
    hc rfl
  have hrun : runCalls (k + 1) st =
      ({ st with
          inflightId := some st.nextId
          nextId := st.nextId + 1
          requests := st.requests + 1 },
        CallPhase.initiated st.nextId ::
          List.replicate k (CallPhase.joined st.nextId)) := by
    simp [runCalls, hcs, hrest]
  refine ⟨by simp [hrun], by simp [hrun], ?_⟩
  intro outcome ph hmem
  rw [hrun] at hmem
  simp only [List.mem_cons] at hmem
  rcases hmem with h | h
  · rw [h]
  · have := List.eq_of_mem_replicate h
    rw [this]
    exact deliver_joined_eq_initiated outcome st.nextId st.nextId

/-- Witness for C1 at `K = 2` from the fresh module state: one outbound
request, phases `initiated 0` then `joined 0`, and the joiner is delivered
the initiator's pair. -/
theorem single_flight_witness :
    (runCalls 2 initialCacheState).1.requests = initialCacheState.requests + 1 ∧
    (runCalls 2 initialCacheState).2 =
      [CallPhase.initiated 0, CallPhase.joined 0] ∧
    deliver (Except.ok DEFAULT_SITE_SETTINGS) (CallPhase.joined 0) =
      deliver (Except.ok DEFAULT_SITE_SETTINGS) (CallPhase.initiated 0) := by
  have h := single_flight 2 initialCacheState (by decide) rfl rfl
  exact ⟨h.1, h.2.1, h.2.2 (Except.ok DEFAULT_SITE_SETTINGS)
    (CallPhase.joined 0) (by decide)⟩

/-- Claim C4 (failure fallback): from an empty cache with no fetch in
flight, a `getSettings()` whose fetch errors is delivered the default
settings together with a non-null error, the cached-value slot is still
empty afterwards, and the next call initiates a new fetch (issuing a
second outbound request). -/
theorem failure_fallback (st : CacheState) (r : FetchResult) (e : FetchError)
    (hc : st.cache = none) (hi : st.inflightId = none)
    (hr : runFetch r = .error e) :
    (getSettingsOnce st r).2 = (DEFAULT_SITE_SETTINGS, some e) ∧
    (getSettingsOnce st r).1.cache = none ∧
    (getSettingsOnce st r).1.requests = st.requests + 1 ∧
    (callStep (getSettingsOnce st r).1).2 =
      CallPhase.initiated (getSettingsOnce st r).1.nextId ∧
    (callStep (getSettingsOnce st r).1).1.requests = st.requests + 2 := by
  have hcs : callStep st =
      ({ st with
          inflightId := some st.nextId
          nextId := st.nextId + 1
          requests := st.requests + 1 },
        CallPhase.initiated st.nextId) := by
    simp [callStep, hc, hi]
  have hgo : getSettingsOnce st r =
      ({ st with
          inflightId := none
          nextId := st.nextId + 1
          requests := st.requests + 1 },
        (DEFAULT_SITE_SETTINGS, some e)) := by
    simp [getSettingsOnce, hcs, hr, initiatorResume]
  refine ⟨by simp [hgo], by simp [hgo, hc], by simp [hgo], ?_, ?_⟩
  · simp [hgo, callStep, hc]
  · simp [hgo, callStep, hc]

/-- Witness for C4: a network failure from the fresh module state. -/
theorem failure_fallback_witness :
    (getSettingsOnce initialCacheState FetchResult.networkError).2 =
      (DEFAULT_SITE_SETTINGS, some FetchError.networkFailure) ∧
    (getSettingsOnce initialCacheState FetchResult.networkError).1.cache = none :=
  ⟨(failure_fallback initialCacheState FetchResult.networkError
      FetchError.networkFailure rfl rfl rfl).1,
    (failure_fallback initialCacheState FetchResult.networkError
      FetchError.networkFailure rfl rfl rfl).2.1⟩

/-- Claim C5 (fast path): once the cached-value slot holds `s`, any number
of further `getSettings()` calls resolve immediately to `s` with no new
outbound request and no state change; and after `clearSiteSettingsCache`
the next call initiates exactly one new outbound request. -/
theorem fast_path (k : Nat) (st : CacheState) (s : SiteSettings)
    (hc : st.cache = some s) :
    runCalls k st = (st, List.replicate k (CallPhase.done s none)) ∧
    (runCalls k st).1.requests = st.requests ∧
    (callStep (clearSiteSettingsCache st)).2 =
      CallPhase.initiated st.nextId ∧
    (callStep (clearSiteSettingsCache st)).1.requests = st.requests + 1 := by
  have h := runCalls_done s k st hc
  refine ⟨h, by simp [h], ?_, ?_⟩
  · simp [callStep, clearSiteSettingsCache]
  · simp [callStep, clearSiteSettingsCache]

/-- A module state as it stands after one successful fetch populated the
cache: one request issued, fetch id `0` consumed, promise slot cleared. -/
def populatedCacheState : CacheState :=
  { cache := some DEFAULT_SITE_SETTINGS, inflightId := none
    nextId := 1, requests := 1 }

/-- Witness for C5: from `populatedCacheState`, three further calls leave
the request count at `1`, and the call after invalidation issues request
number `2`. -/
theorem fast_path_witness :
    runCalls 3 populatedCacheState =
      (populatedCacheState,
        List.replicate 3 (CallPhase.done DEFAULT_SITE_SETTINGS none)) ∧
    (callStep (clearSiteSettingsCache populatedCacheState)).1.requests = 2 := by
  have h := fast_path 3 populatedCacheState DEFAULT_SITE_SETTINGS rfl
  exact ⟨h.1, h.2.2.2⟩

/-- Claim C10 (invalidation does not detach an in-flight fetch): if
`clearSiteSettingsCache` runs while a fetch is in flight, the invalidation
empties both slots, but when that fetch later succeeds with `s` the
initiator's continuation still writes `s` into the cached-value slot, so
the cache is populated with the pre-invalidation fetch's value. -/
theorem invalidate_does_not_detach (st : CacheState) (s : SiteSettings)
    (hc : st.cache = none) (hi : st.inflightId = none) :
    (callStep st).2 = CallPhase.initiated st.nextId ∧
    (clearSiteSettingsCache (callStep st).1).cache = none ∧
    (clearSiteSettingsCache (callStep st).1).inflightId = none ∧
    (initiatorResume (clearSiteSettingsCache (callStep st).1)
        (Except.ok s)).1.cache = some s := by
  have hcs : callStep st =
      ({ st with
          inflightId := some st.nextId
          nextId := st.nextId + 1
          requests := st.requests + 1 },
        CallPhase.initiated st.nextId) := by
    simp [callStep, hc, hi]
  refine ⟨by simp [hcs], ?_, ?_, ?_⟩
  · simp [hcs, clearSiteSettingsCache]
  · simp [hcs, clearSiteSettingsCache]
  · simp [hcs, clearSiteSettingsCache, initiatorResume]

/-- Witness for C10 from the fresh module state. -/
theorem invalidate_does_not_detach_witness :
    (clearSiteSettingsCache (callStep initialCacheState).1).cache = none ∧
    (initiatorResume (clearSiteSettingsCache (callStep initialCacheState).1)
        (Except.ok DEFAULT_SITE_SETTINGS)).1.cache = some DEFAULT_SITE_SETTINGS :=
  ⟨(invalidate_does_not_detach initialCacheState DEFAULT_SITE_SETTINGS rfl rfl).2.1,
    (invalidate_does_not_detach initialCacheState DEFAULT_SITE_SETTINGS rfl rfl).2.2.2⟩

/-! ## Claims about the fetch body -/

/-- Claim C2, counterexample: a response body that is valid JSON but not an
array — so not "a JSON array of row objects" — does NOT complete the
operation in an error state; the fetch resolves successfully to the
default settings, and the initiator is delivered a null error. -/
theorem malformed_nonarray_is_success :
    runFetch (FetchResult.response true 200 ResponseBody.jsonNonArray) =
      Except.ok DEFAULT_SITE_SETTINGS ∧
    deliver (runFetch (FetchResult.response true 200 ResponseBody.jsonNonArray))
        (CallPhase.initiated 0) = (DEFAULT_SITE_SETTINGS, none) :=
  ⟨rfl, rfl⟩

/-- Claim C2, amended: transport failures, non-ok responses and bodies that
fail JSON parsing complete the operation in an error state, and every
waiter — initiator and joiner alike — is delivered the same
`(defaults, error)` pair; a body that parses to JSON that is not an array
is instead treated like the zero-row case and resolves successfully to the
defaults. -/
theorem fetch_error_paths (st : CacheState) (status : Nat)
    (b : ResponseBody) (e : FetchError) :
    runFetch FetchResult.networkError = Except.error FetchError.networkFailure ∧
    runFetch (FetchResult.response false status b) =
      Except.error (FetchError.httpError status) ∧
    runFetch (FetchResult.response true status ResponseBody.parseError) =
      Except.error FetchError.jsonError ∧
    runFetch (FetchResult.response true status ResponseBody.jsonNonArray) =
      Except.ok DEFAULT_SITE_SETTINGS ∧
    joinerResume (Except.error e) = (DEFAULT_SITE_SETTINGS, some e) ∧
    (initiatorResume st (Except.error e)).2 = (DEFAULT_SITE_SETTINGS, some e) ∧
    deliver (Except.error e) (CallPhase.joined 0) =
      deliver (Except.error e) (CallPhase.initiated 0) :=
  ⟨rfl, rfl, rfl, rfl, rfl, rfl, rfl⟩

/-- JavaScript truthiness of `o?.length` for a nullable array `o`: true
exactly when the array is present and non-empty. -/
def listFilled {α : Type} (o : Option (List α)) : Bool :=
  !(o.getD []).isEmpty

theorem listOr_of_not_filled {α : Type} (o : Option (List α)) (d : List α)
    (h : listFilled o = false) : listOr o d = d := by
  cases o with
  | none => rfl
  | some l =>
    simp only [listFilled, Option.getD_some, Bool.not_eq_false'] at h
    simp [listOr, h]

theorem listOr_ne_nil {α : Type} (o : Option (List α)) (d : List α)
    (hd : d ≠ []) : listOr o d ≠ [] := by
  cases o with
  | none => simpa [listOr] using hd
  | some l =>
    by_cases h : l.isEmpty
    · simpa [listOr, h] using hd
    · have hne : l ≠ [] := by
        intro hl
        rw [hl] at h
        exact h rfl
      simpa [listOr, h] using hne

/-- Claim C7 (default substitution): a successful fetch returning zero rows
resolves to the built-in defaults and the initiator is delivered a null
error (a success, not an error); and for every row the four
sequence-valued fields of `rowToSiteSettings` are non-empty, the default
seed list being substituted whenever the stored sequence is absent or
empty. -/
theorem default_substitution (status : Nat) (st : CacheState)
    (row : SiteSettingsRow) :
    runFetch (FetchResult.response true status (ResponseBody.jsonArray [])) =
      Except.ok DEFAULT_SITE_SETTINGS ∧
    (initiatorResume st (Except.ok DEFAULT_SITE_SETTINGS)).2 =
      (DEFAULT_SITE_SETTINGS, none) ∧
    (rowToSiteSettings row).navigationItems ≠ [] ∧
    (rowToSiteSettings row).footerAboutLinks ≠ [] ∧
    (rowToSiteSettings row).footerPracticeLinks ≠ [] ∧
    (rowToSiteSettings row).socialLinks ≠ [] ∧
    (listFilled row.navigation_items = false →
      (rowToSiteSettings row).navigationItems =
        DEFAULT_SITE_SETTINGS.navigationItems) ∧
    (listFilled row.footer_about_links = false →
      (rowToSiteSettings row).footerAboutLinks =
        DEFAULT_SITE_SETTINGS.footerAboutLinks) ∧
    (listFilled row.footer_practice_links = false →
      (rowToSiteSettings row).footerPracticeLinks =
        DEFAULT_SITE_SETTINGS.footerPracticeLinks) ∧
    (listFilled row.social_links = false →
      (rowToSiteSettings row).socialLinks =
        DEFAULT_SITE_SETTINGS.socialLinks) := by
  refine ⟨rfl, rfl, ?_, ?_, ?_, ?_, ?_, ?_, ?_, ?_⟩
  · exact listOr_ne_nil _ _ (by decide)
  · exact listOr_ne_nil _ _ (by decide)
  · exact listOr_ne_nil _ _ (by decide)
  · exact listOr_ne_nil _ _ (by decide)
  · exact fun h => listOr_of_not_filled _ _ h
  · exact fun h => listOr_of_not_filled _ _ h
  · exact fun h => listOr_of_not_filled _ _ h
  · exact fun h => listOr_of_not_filled _ _ h

/-- A row as the backend view could deliver it for an object with every
nullable field null and the audit strings present. -/
def allNullRow : SiteSettingsRow :=
  { id := "row-1", settings_key := "global"
    logo_url := none, logo_alt := none
    phone_number := none, phone_display := none, phone_availability := none
    apply_phone_globally := none
    header_cta_text := none, header_cta_url := none
    navigation_items := none, footer_about_links := none
    footer_practice_links := none
    address_line1 := none, address_line2 := none, map_embed_url := none
    social_links := none, copyright_text := none, site_noindex := none
    ga4_measurement_id := none, google_ads_id := none
    google_ads_conversion_label := none
    head_scripts := none, footer_scripts := none, site_name := none
    updated_at := "2026-01-01", updated_by := none }

/-- Witness for C7: on `allNullRow` the navigation default seed is
substituted and is non-empty. -/
theorem default_substitution_witness :
    (rowToSiteSettings allNullRow).navigationItems =
      DEFAULT_SITE_SETTINGS.navigationItems ∧
    (rowToSiteSettings allNullRow).navigationItems ≠ [] :=
  ⟨(default_substitution 200 initialCacheState allNullRow).2.2.2.2.2.2.1 rfl,
    (default_substitution 200 initialCacheState allNullRow).2.2.1⟩

/-! ## Claims about the row/object mapping -/

/-- JavaScript truthiness of a nullable string: present and non-empty. -/
def textFilled (o : Option String) : Bool :=
  match o with
  | some s => s != ""
  | none => false

theorem strOr_filled (o : Option String) (d : String)
    (h : textFilled o = true) : some (strOr o d) = o := by
  cases o with
  | none => simp [textFilled] at h
  | some s =>
    simp only [textFilled, bne_iff_ne, ne_eq] at h
    simp [strOr, h]

theorem emptyToNull_strOr_filled (o : Option String) (d : String)
    (h : textFilled o = true) : emptyToNull (strOr o d) = o := by
  cases o with
  | none => simp [textFilled] at h
  | some s =>
    simp only [textFilled, bne_iff_ne, ne_eq] at h
    simp [strOr, emptyToNull, h]

theorem boolOr_isSome (o : Option Bool) (d : Bool)
    (h : o.isSome = true) : some (boolOr o d) = o := by
  cases o with
  | none => simp at h
  | some b => rfl

theorem listOr_filled {α : Type} (o : Option (List α)) (d : List α)
    (h : listFilled o = true) : some (listOr o d) = o := by
  cases o with
  | none => simp [listFilled] at h
  | some l =>
    simp only [listFilled, Option.getD_some, Bool.not_eq_true'] at h
    simp [listOr, h]

/-- The population condition exactly as claim C3 states it: every nullable
field non-null, every sequence non-empty (an empty string still counts as
populated). -/
def rowPopulated (r : SiteSettingsRow) : Bool :=
  r.logo_url.isSome && r.logo_alt.isSome && r.phone_number.isSome &&
  r.phone_display.isSome && r.phone_availability.isSome &&
  r.apply_phone_globally.isSome && r.header_cta_text.isSome &&
  r.header_cta_url.isSome && listFilled r.navigation_items &&
  listFilled r.footer_about_links && listFilled r.footer_practice_links &&
  r.address_line1.isSome && r.address_line2.isSome &&
  r.map_embed_url.isSome && listFilled r.social_links &&
  r.copyright_text.isSome && r.site_noindex.isSome &&
  r.ga4_measurement_id.isSome && r.google_ads_id.isSome &&
  r.google_ads_conversion_label.isSome && r.head_scripts.isSome &&
  r.footer_scripts.isSome && r.site_name.isSome && r.updated_by.isSome

/-- A row with every field populated in the sense of claim C3 — non-null
throughout, sequences non-empty — whose `ga4_measurement_id` is the empty
string. -/
def populatedRowEmptyGa4 : SiteSettingsRow :=
  { id := "row-1", settings_key := "global"
    logo_url := some "https://example.com/logo.png"
    logo_alt := some "Logo"
    phone_number := some "4045550100"
    phone_display := some "404-555-0100"
    phone_availability := some "Available 24/7"
    apply_phone_globally := some true
    header_cta_text := some "CALL NOW"
    header_cta_url := some "#call"
    navigation_items :=
      some [{ label := "Home", href := "/", order := some 1, openInNewTab := none }]
    footer_about_links := some [{ label := "About", href := some "/about" }]
    footer_practice_links := some [{ label := "Car", href := some "/car" }]
    address_line1 := some "1 Main St"
    address_line2 := some "Atlanta, GA"
    map_embed_url := some "https://maps.example.com/embed"
    social_links := some [{ platform := .facebook, url := "https://fb.example", enabled := true }]
    copyright_text := some "All Rights Reserved"
    site_noindex := some false
    ga4_measurement_id := some ""
    google_ads_id := some "AW-1"
    google_ads_conversion_label := some "lbl"
    head_scripts := some "<script></script>"
    footer_scripts := some "<script>f</script>"
    site_name := some "Example Firm"
    updated_at := "2026-01-01", updated_by := some "admin" }

/-- Claim C3, counterexample: `populatedRowEmptyGa4` has every field
populated exactly as the claim requires (non-null, sequences non-empty),
yet Row → Settings → partial-Row does not preserve `ga4_measurement_id`:
the stored empty string comes back as null. -/
theorem roundtrip_counterexample :
    rowPopulated populatedRowEmptyGa4 = true ∧
    (siteSettingsToRow (rowToSiteSettings populatedRowEmptyGa4)).ga4_measurement_id ≠
      populatedRowEmptyGa4.ga4_measurement_id :=
  ⟨rfl, by decide⟩

/-- The strengthened population condition under which the round-trip does
hold: every text field non-null AND non-empty, booleans non-null,
sequences non-empty. -/
def rowStrictPopulated (r : SiteSettingsRow) : Prop :=
  textFilled r.site_name = true ∧
  textFilled r.logo_url = true ∧
  textFilled r.logo_alt = true ∧
  textFilled r.phone_number = true ∧
  textFilled r.phone_display = true ∧
  textFilled r.phone_availability = true ∧
  r.apply_phone_globally.isSome = true ∧
  textFilled r.header_cta_text = true ∧
  textFilled r.header_cta_url = true ∧
  listFilled r.navigation_items = true ∧
  listFilled r.footer_about_links = true ∧
  listFilled r.footer_practice_links = true ∧
  textFilled r.address_line1 = true ∧
  textFilled r.address_line2 = true ∧
  textFilled r.map_embed_url = true ∧
  listFilled r.social_links = true ∧
  textFilled r.copyright_text = true ∧
  r.site_noindex.isSome = true ∧
  textFilled r.ga4_measurement_id = true ∧
  textFilled r.google_ads_id = true ∧
  textFilled r.google_ads_conversion_label = true ∧
  textFilled r.head_scripts = true ∧
  textFilled r.footer_scripts = true

/-- Field-by-field agreement of a write patch with the row it originated
from: every key the patch carries holds the row's stored value (the
patch's plain-valued slots compare under the `some` injection into the
row's nullable typing). -/
def patchAgrees (r : SiteSettingsRow) (p : SiteSettingsRowPatch) : Prop :=
  p.site_name = r.site_name ∧
  p.logo_url = r.logo_url ∧
  p.logo_alt = r.logo_alt ∧
  p.phone_number = r.phone_number ∧
  p.phone_display = r.phone_display ∧
  p.phone_availability = r.phone_availability ∧
  some p.apply_phone_globally = r.apply_phone_globally ∧
  p.header_cta_text = r.header_cta_text ∧
  p.header_cta_url = r.header_cta_url ∧
  some p.navigation_items = r.navigation_items ∧
  some p.footer_about_links = r.footer_about_links ∧
  some p.footer_practice_links = r.footer_practice_links ∧
  p.address_line1 = r.address_line1 ∧
  p.address_line2 = r.address_line2 ∧
  p.map_embed_url = r.map_embed_url ∧
  some p.social_links = r.social_links ∧
  p.copyright_text = r.copyright_text ∧
  some p.site_noindex = r.site_noindex ∧
  p.ga4_measurement_id = r.ga4_measurement_id ∧
  p.google_ads_id = r.google_ads_id ∧
  p.google_ads_conversion_label = r.google_ads_conversion_label ∧
  p.head_scripts = r.head_scripts ∧
  p.footer_scripts = r.footer_scripts

/-- Claim C3, amended: for every row whose text fields are non-null and
non-empty, whose boolean fields are non-null and whose sequences are
non-empty, applying `rowToSiteSettings` and then `siteSettingsToRow`
yields a partial row in which every field carries the same semantic value
as the original row.  (The claim as frozen fails at rows holding empty
strings, which the mappers' falsy-default logic rewrites.) -/
theorem roundtrip_preserved (r : SiteSettingsRow)
    (h : rowStrictPopulated r) :
    patchAgrees r (siteSettingsToRow (rowToSiteSettings r)) := by
  obtain ⟨h1, h2, h3, h4, h5, h6, h7, h8, h9, h10, h11, h12, h13, h14,
    h15, h16, h17, h18, h19, h20, h21, h22, h23⟩ := h
  unfold patchAgrees siteSettingsToRow rowToSiteSettings
  exact ⟨strOr_filled _ _ h1, strOr_filled _ _ h2, strOr_filled _ _ h3,
    strOr_filled _ _ h4, strOr_filled _ _ h5, strOr_filled _ _ h6,
    boolOr_isSome _ _ h7, strOr_filled _ _ h8, strOr_filled _ _ h9,
    listOr_filled _ _ h10, listOr_filled _ _ h11, listOr_filled _ _ h12,
    strOr_filled _ _ h13, strOr_filled _ _ h14, strOr_filled _ _ h15,
    listOr_filled _ _ h16, strOr_filled _ _ h17, boolOr_isSome _ _ h18,
    emptyToNull_strOr_filled _ _ h19, emptyToNull_strOr_filled _ _ h20,
    emptyToNull_strOr_filled _ _ h21, emptyToNull_strOr_filled _ _ h22,
    emptyToNull_strOr_filled _ _ h23⟩

/-- `populatedRowEmptyGa4` with its analytics field non-empty: strictly
populated. -/
def strictRow : SiteSettingsRow :=
  { populatedRowEmptyGa4 with ga4_measurement_id := some "G-XYZ" }

/-- Witness for the amended C3 at `strictRow`. -/
theorem roundtrip_preserved_witness :
    patchAgrees strictRow (siteSettingsToRow (rowToSiteSettings strictRow)) :=
  roundtrip_preserved strictRow (by unfold rowStrictPopulated; decide)

/-- The default settings with an emptied logo URL: `logoUrl` is an
optional text field of the row shape (`logo_url : string | null`). -/
def settingsEmptyLogo : SiteSettings :=
  { DEFAULT_SITE_SETTINGS with logoUrl := "" }

/-- Claim C6, counterexample: `siteSettingsToRow` carries the empty-string
`logoUrl` through as an (empty) present string rather than mapping it to
null, although `logo_url` is an optional (nullable) text field of the
row. -/
theorem empty_string_carried_through :
    settingsEmptyLogo.logoUrl = "" ∧
    (siteSettingsToRow settingsEmptyLogo).logo_url = some "" :=
  ⟨rfl, rfl⟩

/-- Claim C6, amended: only the five analytics and script fields
(`ga4_measurement_id`, `google_ads_id`, `google_ads_conversion_label`,
`head_scripts`, `footer_scripts`) map the empty string to an explicit
null (and a non-empty value to itself); every other text field of the
partial row is carried over verbatim, empty strings included. -/
theorem empty_to_null_scope (s : SiteSettings) :
    (s.ga4MeasurementId = "" →
      (siteSettingsToRow s).ga4_measurement_id = none) ∧
    (s.ga4MeasurementId ≠ "" →
      (siteSettingsToRow s).ga4_measurement_id = some s.ga4MeasurementId) ∧
    (s.googleAdsId = "" → (siteSettingsToRow s).google_ads_id = none) ∧
    (s.googleAdsId ≠ "" →
      (siteSettingsToRow s).google_ads_id = some s.googleAdsId) ∧
    (s.googleAdsConversionLabel = "" →
      (siteSettingsToRow s).google_ads_conversion_label = none) ∧
    (s.googleAdsConversionLabel ≠ "" →
      (siteSettingsToRow s).google_ads_conversion_label =
        some s.googleAdsConversionLabel) ∧
    (s.headScripts = "" → (siteSettingsToRow s).head_scripts = none) ∧
    (s.headScripts ≠ "" →
      (siteSettingsToRow s).head_scripts = some s.headScripts) ∧
    (s.footerScripts = "" → (siteSettingsToRow s).footer_scripts = none) ∧
    (s.footerScripts ≠ "" →
      (siteSettingsToRow s).footer_scripts = some s.footerScripts) ∧
    (siteSettingsToRow s).site_name = some s.siteName ∧
    (siteSettingsToRow s).logo_url = some s.logoUrl ∧
    (siteSettingsToRow s).logo_alt = some s.logoAlt ∧
    (siteSettingsToRow s).phone_number = some s.phoneNumber ∧
    (siteSettingsToRow s).phone_display = some s.phoneDisplay ∧
    (siteSettingsToRow s).phone_availability = some s.phoneAvailability ∧
    (siteSettingsToRow s).header_cta_text = some s.headerCtaText ∧
    (siteSettingsToRow s).header_cta_url = some s.headerCtaUrl ∧
    (siteSettingsToRow s).address_line1 = some s.addressLine1 ∧
    (siteSettingsToRow s).address_line2 = some s.addressLine2 ∧
    (siteSettingsToRow s).map_embed_url = some s.mapEmbedUrl ∧
    (siteSettingsToRow s).copyright_text = some s.copyrightText := by
  refine ⟨?_, ?_, ?_, ?_, ?_, ?_, ?_, ?_, ?_, ?_,
    rfl, rfl, rfl, rfl, rfl, rfl, rfl, rfl, rfl, rfl, rfl, rfl⟩ <;>
    intro h <;> simp [siteSettingsToRow, emptyToNull, h]

/-- Witness for the amended C6: the defaults have an empty
`ga4MeasurementId`, which the patch maps to null. -/
theorem empty_to_null_scope_witness :
    (siteSettingsToRow DEFAULT_SITE_SETTINGS).ga4_measurement_id = none :=
  (empty_to_null_scope DEFAULT_SITE_SETTINGS).1 rfl

/-! ## Helper lemmas about the `ArrayEditor` list operations -/

theorem enumFrom_filter_gt {α : Type} (t : Nat) :
    ∀ (l : List α) (k : Nat), t < k →
    (List.enumFrom k l).filter (fun p => p.1 != t) = List.enumFrom k l := by
  intro l
  induction l with
  | nil => intro k _; rfl
  | cons x xs ih =>
    intro k h
    have hk : (k != t) = true := by simp [Nat.ne_of_gt h]
    simp [List.enumFrom, List.filter, hk, ih (k + 1) (Nat.lt_succ_of_lt h)]

theorem enumFrom_filter_eraseIdx {α : Type} :
    ∀ (l : List α) (k i : Nat),
    ((List.enumFrom k l).filter (fun p => p.1 != (k + i))).map Prod.snd =
      l.eraseIdx i := by
  intro l
  induction l with
  | nil => intro k i; rfl
  | cons x xs ih =>
    intro k i
    cases i with
    | zero =>
      have hk : (k != k + 0) = false := by simp
      have hrest := enumFrom_filter_gt k xs (k + 1) (by omega)
      simp only [Nat.add_zero] at hk ⊢
      simp [List.enumFrom, List.filter, hk, hrest, List.eraseIdx,
        List.enumFrom_map_snd]
    | succ j =>
      have hk : (k != k + (j + 1)) = true := by simp
      have hih := ih (k + 1) j
      rw [show (k + 1) + j = k + (j + 1) by omega] at hih
      simp [List.enumFrom, List.filter, hk, List.eraseIdx, hih]

/-- The source's `items.filter((_, i) => i !== index)` is remove-at-position:
it equals `eraseIdx`. -/
theorem arrayRemoveItem_eq_eraseIdx {α : Type} (items : List α) (i : Nat) :
    arrayRemoveItem items i = items.eraseIdx i := by
  have hmain := enumFrom_filter_eraseIdx items 0 i
  simpa [arrayRemoveItem, List.enum] using hmain

/-- Replace-at-position frame property of the source's copy-and-overwrite
update. -/
theorem arrayUpdateItem_getElem {α : Type} (xs : List α) (i j : Nat) (x : α) :
    (arrayUpdateItem xs i x)[j]? =
      if i = j then (if i < xs.length then some x else none) else xs[j]? := by
  simp [arrayUpdateItem, List.getElem?_set]

/-! ## Claims about the editor surface -/

/-- Claim C8 (editor immutability): for each specific page editor (Home,
About, Contact, PracticeAreas), each field's change handler hands
`onChange` a document whose edited field equals the new value and which,
once that one field is put back, is the input document again — so every
sibling field is unchanged and the input is never mutated (the update is a
fresh value).  This covers every `update` key of the four editors, a
representative leaf handler (hero title) per editor, and the
`ArrayEditor` operations: append, remove-by-position and
replace-at-position all produce a new sequence with the expected
contents. -/
theorem editor_update_frame
    (h : HomePageContent) (a : AboutPageContent) (ct : ContactPageContent)
    (pa : PracticeAreasPageContent)
    (vh1 : HomeHero) (vh2 : List HomeFeature) (vh3 : HomeMission)
    (vh4 : HomeAttorney) (vh5 : HomeSpeakWithUs) (vh6 : HomeClientStories)
    (vh7 : HomeContactForm) (vh8 : HomeServices)
    (va1 : AboutHero) (va2 : AboutStory) (va3 : AboutAttorney)
    (va4 : List ApproachCard) (va5 : List Testimonial) (va6 : CtaSection)
    (vc1 : ContactHero) (vc2 : ContactInfo) (vc3 : ContactFormSection)
    (vc4 : List OfficeHoursEntry) (vc5 vc6 : String) (vc7 : CtaSection)
    (vp1 : PracticeAreasHero) (vp2 : String) (vp3 : List PracticeArea)
    (vp4 : OptionsSection) (vp5 : CtaSection)
    (t1 t2 t3 t4 : String)
    (α : Type) (xs : List α) (x : α) (i j : Nat) :
    ((homeUpdateHero h vh1).hero = vh1 ∧
      { homeUpdateHero h vh1 with hero := h.hero } = h) ∧
    ((homeUpdateFeatures h vh2).features = vh2 ∧
      { homeUpdateFeatures h vh2 with features := h.features } = h) ∧
    ((homeUpdateMission h vh3).mission = vh3 ∧
      { homeUpdateMission h vh3 with mission := h.mission } = h) ∧
    ((homeUpdateAttorney h vh4).attorney = vh4 ∧
      { homeUpdateAttorney h vh4 with attorney := h.attorney } = h) ∧
    ((homeUpdateSpeakWithUs h vh5).speakWithUs = vh5 ∧
      { homeUpdateSpeakWithUs h vh5 with speakWithUs := h.speakWithUs } = h) ∧
    ((homeUpdateClientStories h vh6).clientStories = vh6 ∧
      { homeUpdateClientStories h vh6 with clientStories := h.clientStories } = h) ∧
    ((homeUpdateContactForm h vh7).contactForm = vh7 ∧
      { homeUpdateContactForm h vh7 with contactForm := h.contactForm } = h) ∧
    ((homeUpdateServices h vh8).services = vh8 ∧
      { homeUpdateServices h vh8 with services := h.services } = h) ∧
    ((homeHeroTitleHandler h t1).hero.title = t1 ∧
      { homeHeroTitleHandler h t1 with
          hero := { (homeHeroTitleHandler h t1).hero with
                      title := h.hero.title } } = h) ∧
    ((aboutUpdateHero a va1).hero = va1 ∧
      { aboutUpdateHero a va1 with hero := a.hero } = a) ∧
    ((aboutUpdateStory a va2).story = va2 ∧
      { aboutUpdateStory a va2 with story := a.story } = a) ∧
    ((aboutUpdateAttorney a va3).attorney = va3 ∧
      { aboutUpdateAttorney a va3 with attorney := a.attorney } = a) ∧
    ((aboutUpdateApproach a va4).approach = va4 ∧
      { aboutUpdateApproach a va4 with approach := a.approach } = a) ∧
    ((aboutUpdateTestimonials a va5).testimonials = va5 ∧
      { aboutUpdateTestimonials a va5 with testimonials := a.testimonials } = a) ∧
    ((aboutUpdateCta a va6).cta = va6 ∧
      { aboutUpdateCta a va6 with cta := a.cta } = a) ∧
    ((aboutHeroTitleHandler a t2).hero.title = t2 ∧
      { aboutHeroTitleHandler a t2 with
          hero := { (aboutHeroTitleHandler a t2).hero with
                      title := a.hero.title } } = a) ∧
    ((contactUpdateHero ct vc1).hero = vc1 ∧
      { contactUpdateHero ct vc1 with hero := ct.hero } = ct) ∧
    ((contactUpdateInfo ct vc2).info = vc2 ∧
      { contactUpdateInfo ct vc2 with info := ct.info } = ct) ∧
    ((contactUpdateForm ct vc3).form = vc3 ∧
      { contactUpdateForm ct vc3 with form := ct.form } = ct) ∧
    ((contactUpdateOfficeHours ct vc4).officeHours = vc4 ∧
      { contactUpdateOfficeHours ct vc4 with officeHours := ct.officeHours } = ct) ∧
    ((contactUpdateHoursNote ct vc5).hoursNote = vc5 ∧
      { contactUpdateHoursNote ct vc5 with hoursNote := ct.hoursNote } = ct) ∧
    ((contactUpdateMapEmbedUrl ct vc6).mapEmbedUrl = vc6 ∧
      { contactUpdateMapEmbedUrl ct vc6 with mapEmbedUrl := ct.mapEmbedUrl } = ct) ∧
    ((contactUpdateCta ct vc7).cta = vc7 ∧
      { contactUpdateCta ct vc7 with cta := ct.cta } = ct) ∧
    ((contactHeroTitleHandler ct t3).hero.title = t3 ∧
      { contactHeroTitleHandler ct t3 with
          hero := { (contactHeroTitleHandler ct t3).hero with
                      title := ct.hero.title } } = ct) ∧
    ((paUpdateHero pa vp1).hero = vp1 ∧
      { paUpdateHero pa vp1 with hero := pa.hero } = pa) ∧
    ((paUpdateIntro pa vp2).intro = vp2 ∧
      { paUpdateIntro pa vp2 with intro := pa.intro } = pa) ∧
    ((paUpdateAreas pa vp3).areas = vp3 ∧
      { paUpdateAreas pa vp3 with areas := pa.areas } = pa) ∧
    ((paUpdateOptions pa vp4).options = vp4 ∧
      { paUpdateOptions pa vp4 with options := pa.options } = pa) ∧
    ((paUpdateCta pa vp5).cta = vp5 ∧
      { paUpdateCta pa vp5 with cta := pa.cta } = pa) ∧
    ((paHeroTitleHandler pa t4).hero.title = t4 ∧
      { paHeroTitleHandler pa t4 with
          hero := { (paHeroTitleHandler pa t4).hero with
                      title := pa.hero.title } } = pa) ∧
    arrayAddItem xs x = xs ++ [x] ∧
    arrayRemoveItem xs i = xs.eraseIdx i ∧
    (arrayUpdateItem xs i x)[j]? =
      (if i = j then (if i < xs.length then some x else none) else xs[j]?) :=
  ⟨⟨rfl, rfl⟩, ⟨rfl, rfl⟩, ⟨rfl, rfl⟩, ⟨rfl, rfl⟩, ⟨rfl, rfl⟩, ⟨rfl, rfl⟩,
    ⟨rfl, rfl⟩, ⟨rfl, rfl⟩, ⟨rfl, rfl⟩, ⟨rfl, rfl⟩, ⟨rfl, rfl⟩, ⟨rfl, rfl⟩,
    ⟨rfl, rfl⟩, ⟨rfl, rfl⟩, ⟨rfl, rfl⟩, ⟨rfl, rfl⟩, ⟨rfl, rfl⟩, ⟨rfl, rfl⟩,
    ⟨rfl, rfl⟩, ⟨rfl, rfl⟩, ⟨rfl, rfl⟩, ⟨rfl, rfl⟩, ⟨rfl, rfl⟩, ⟨rfl, rfl⟩,
    ⟨rfl, rfl⟩, ⟨rfl, rfl⟩, ⟨rfl, rfl⟩, ⟨rfl, rfl⟩, ⟨rfl, rfl⟩, ⟨rfl, rfl⟩,
    rfl, arrayRemoveItem_eq_eraseIdx xs i, arrayUpdateItem_getElem xs i j x⟩

/-- Claim C9 (fallback parse-guard): the fallback editor's textarea
handler invokes `onChange` exactly when the text parses — never on a
syntactically invalid document, in which case the prior in-memory content
is retained — and when the text parses the single `onChange` call carries
the parsed document, which becomes the new content.  The host JSON parser
is abstracted as `parse`, with `none` standing for the `JSON.parse`
exception the handler catches. -/
theorem fallback_parse_guard (α : Type) (parse : String → Option α)
    (current : α) (text : String) :
    (parse text = none →
      (fallbackHandleChange parse current text).2 = [] ∧
      (fallbackHandleChange parse current text).1 = current) ∧
    ∀ doc, parse text = some doc →
      (fallbackHandleChange parse current text).2 = [doc] ∧
      (fallbackHandleChange parse current text).1 = doc := by
  constructor
  · intro hp
    simp [fallbackHandleChange, hp]
  · intro doc hp
    simp [fallbackHandleChange, hp]

/-- Witness for C9: a parse behaviour that rejects every text — the
handler emits no `onChange` call and keeps the prior content. -/
theorem fallback_parse_guard_witness :
    (fallbackHandleChange (fun _ => (none : Option Nat)) 7 "not json").2 = [] ∧
    (fallbackHandleChange (fun _ => (none : Option Nat)) 7 "not json").1 = 7 :=
  (fallback_parse_guard Nat (fun _ => none) 7 "not json").1 rfl

end CmsCore
